import Mathlib

/-!
Verification of the incident-map application core against its design
specification.  The JavaScript sources are shallowly embedded: JS numbers
are modelled as exact rationals, absent object fields and NaN as `none`,
promise resolution and waiting as explicit events, and the wall clock,
the Firebase store and the Math trigonometric functions as parameters.
-/

set_option maxRecDepth 100000

namespace IranIsrael

/- ===================================================================
   AnalysisScheduler (src/js/newsService.js): constructor state
   (lines 7-12), processQueue (lines 156-223), makeGeminiRequest
   (lines 225-302), analyzeNewsWithGemini (lines 304-309).
   =================================================================== -/

/-- A pending analysis request as pushed on `this.requestQueue`.  The
objects pushed by `analyzeNewsWithGemini` are `{ text, resolve, reject }`
and carry no `retryCount` field; the field appears only on items
re-enqueued by the 429 branch of `processQueue`.  The promise is
identified by `pid`; the absent field is modelled as `none`. -/
structure QItem where
  pid : Nat
  retryCount : Option Nat
  deriving DecidableEq

/-- Outcome of one `makeGeminiRequest` call as observed by the
`try`/`catch` in `processQueue`: either the awaited value, or a thrown
error carrying `error.status` (a failed HTTP response sets the status
code; other thrown errors have no numeric status and are modelled by
any status value different from 429). -/
inductive GeminiOutcome (α : Type) where
  | success (result : α)
  | failure (status : Nat)
  deriving DecidableEq

/-- Observable actions of the scheduler: a wait (`await this.delay(ms)`
or the `setTimeout` follow-up activation delay), resolving an item
promise, or rejecting it. -/
inductive SchedEvent (α : Type) where
  | waited (ms : Nat)
  | resolved (pid : Nat) (result : α)
  | rejected (pid : Nat) (status : Nat)
  deriving DecidableEq

/-- The scheduler state between activations: `this.requestQueue` and
`this.retryDelay`. -/
structure SchedState (α : Type) where
  queue : List QItem
  retryDelay : Nat
  deriving DecidableEq

/-- Constructor value `this.retryDelay = 10000` (line 9). -/
def initRetryDelay : Nat := 10000

/-- Constructor value `this.maxRetryDelay = 120000` (line 10). -/
def maxRetryDelay : Nat := 120000

/-- Constructor value `this.maxQueueSize = 5` (line 12). -/
def maxQueueSize : Nat := 5

/-- The scheduler state right after the constructor ran. -/
def initSchedState (α : Type) : SchedState α := ⟨[], initRetryDelay⟩

/-- The enqueue performed by `analyzeNewsWithGemini` (line 306): pushes
a fresh item without a `retryCount` field. -/
def analyzeNewsWithGemini (st : SchedState α) (pid : Nat) : SchedState α :=
  { st with queue := st.queue ++ [⟨pid, none⟩] }

/-- The guard `item.retryCount < 2` (line 191).  When the field is
absent the JS comparison is `undefined < 2`, which converts `undefined`
to NaN and yields `false`. -/
def rcLtTwo : Option Nat → Bool
  | none => false
  | some n => decide (n < 2)

/-- Mutable state threaded through one activation of `processQueue`:
the live queue, `this.retryDelay`, the number of requests made so far
in this activation (used to index the outcome oracle), and the event
log. -/
structure RunState (α : Type) where
  queue : List QItem
  retryDelay : Nat
  attempts : Nat
  events : List (SchedEvent α)

/-- One iteration of the `for (const item of itemsToProcess)` loop in
`processQueue` (lines 170-211).  `isFirst` is true for the first item
of the batch (`processedItems > 1` guards the inter-request wait);
`oracle` gives the outcome of each `makeGeminiRequest` call in order.
On success: resolve and `shift()`.  On a 429 error with
`item.retryCount < 2`: double `retryDelay` up to `maxRetryDelay`,
`push` the item with `retryCount` incremented (`(item.retryCount || 0)
+ 1`), `shift()`, and wait the new delay.  Otherwise: reject and
`shift()`. -/
def stepItem (oracle : Nat → GeminiOutcome α) (item : QItem) (isFirst : Bool)
    (rs : RunState α) : RunState α :=
  let rs1 : RunState α :=
    if isFirst then rs
    else { rs with events := rs.events ++ [SchedEvent.waited rs.retryDelay] }
  match oracle rs1.attempts with
  | GeminiOutcome.success a =>
      { rs1 with
        attempts := rs1.attempts + 1
        events := rs1.events ++ [SchedEvent.resolved item.pid a]
        queue := rs1.queue.tail }
  | GeminiOutcome.failure status =>
      if status = 429 ∧ rcLtTwo item.retryCount then
        let d := min (rs1.retryDelay * 2) maxRetryDelay
        { rs1 with
          retryDelay := d
          attempts := rs1.attempts + 1
          queue := (rs1.queue ++ [{ item with retryCount := some (item.retryCount.getD 0 + 1) }]).tail
          events := rs1.events ++ [SchedEvent.waited d] }
      else
        { rs1 with
          attempts := rs1.attempts + 1
          events := rs1.events ++ [SchedEvent.rejected item.pid status]
          queue := rs1.queue.tail }

/-- The loop of `processQueue` over the snapshot `itemsToProcess`. -/
def runBatch (oracle : Nat → GeminiOutcome α) :
    List QItem → Bool → RunState α → RunState α
  | [], _, rs => rs
  | item :: rest, isFirst, rs =>
      runBatch oracle rest false (stepItem oracle item isFirst rs)

/-- One activation of `processQueue` (lines 156-223): processes up to
`maxQueueSize` items from a snapshot of the queue; if items remain, a
follow-up activation is scheduled after the current `retryDelay`
(line 216), recorded as a final wait event. -/
def processQueue (oracle : Nat → GeminiOutcome α) (st : SchedState α) :
    SchedState α × List (SchedEvent α) :=
  let rs := runBatch oracle (st.queue.take maxQueueSize) true
    ⟨st.queue, st.retryDelay, 0, []⟩
  if rs.queue.isEmpty then (⟨rs.queue, rs.retryDelay⟩, rs.events)
  else (⟨rs.queue, rs.retryDelay⟩, rs.events ++ [SchedEvent.waited rs.retryDelay])

/-- External stimulus of the scheduler over its lifetime: a
`analyzeNewsWithGemini` submission, or one activation of
`processQueue` with the outcomes its requests will observe. -/
inductive SchedAction (α : Type) where
  | submit (pid : Nat)
  | activate (oracle : Nat → GeminiOutcome α)

/-- Runs a sequence of submissions and activations, concatenating the
event logs chronologically. -/
def runActions : List (SchedAction α) → SchedState α → SchedState α × List (SchedEvent α)
  | [], st => (st, [])
  | SchedAction.submit p :: rest, st => runActions rest (analyzeNewsWithGemini st p)
  | SchedAction.activate o :: rest, st =>
      let r := processQueue o st
      let r2 := runActions rest r.1
      (r2.1, r.2 ++ r2.2)

/-- The delays of the wait events of a log, in chronological order. -/
def waitsOf : List (SchedEvent α) → List Nat :=
  List.filterMap fun e =>
    match e with
    | SchedEvent.waited d => some d
    | _ => none

/- ===================================================================
   Response-body handling of makeGeminiRequest (lines 270-302).
   =================================================================== -/

/-- The whitespace class of the JS regex escape `\s` (and of
`String.prototype.trim`). -/
def isJsSpace (c : Char) : Bool :=
  c = ' ' || c = '\t' || c = '\n' || c = '\x0b' || c = '\x0c' || c = '\r' ||
  c.toNat = 0xa0 || c.toNat = 0x1680 ||
  (0x2000 ≤ c.toNat && c.toNat ≤ 0x200a) ||
  c.toNat = 0x2028 || c.toNat = 0x2029 || c.toNat = 0x202f ||
  c.toNat = 0x205f || c.toNat = 0x3000 || c.toNat = 0xfeff

/-- The JS line terminators, the characters a non-dotAll `.` does not
match: LF, CR, U+2028, U+2029. -/
def isLineTerm (c : Char) : Bool :=
  c = '\n' || c = '\r' || c.toNat = 0x2028 || c.toNat = 0x2029

/-- Models `String.prototype.trim`: strip leading and trailing whitespace. -/
def jsTrim (l : List Char) : List Char :=
  ((l.dropWhile isJsSpace).reverse.dropWhile isJsSpace).reverse

/-- Checks that the first list starts with the second. -/
def startsWithChars : List Char → List Char → Bool
  | _, [] => true
  | [], _ :: _ => false
  | c :: cs, d :: ds => c = d && startsWithChars cs ds

/-- The literal of the opening-fence regex `/```json\s*/`. -/
def fenceOpenLit : List Char := "```json".data

/-- The literal of the closing-fence regex `/```\s*$/`. -/
def fenceCloseLit : List Char := "```".data

/-- Models `responseText.replace(/```json\s*/, '')` (line 284): remove the
leftmost occurrence of the literal followed by its greedy run of
whitespace; leave the string unchanged when there is none. -/
def dropFenceOpen : List Char → List Char
  | [] => []
  | c :: cs =>
      if startsWithChars (c :: cs) fenceOpenLit then
        ((c :: cs).drop fenceOpenLit.length).dropWhile isJsSpace
      else c :: dropFenceOpen cs

/-- Models the call `.replace(/```\s*$/, '')` (line 285): the pattern matches at a
position exactly when the literal starts there and everything after it
is whitespace up to the end of the string (the trailing `$` can only
match at the end, and `\s` includes the line terminators); the leftmost
match is removed, which truncates the string there. -/
def dropFenceClose : List Char → List Char
  | [] => []
  | c :: cs =>
      if startsWithChars (c :: cs) fenceCloseLit &&
          ((c :: cs).drop fenceCloseLit.length).all isJsSpace then []
      else c :: dropFenceClose cs

/-- The fence stripping and `.trim()` applied to the response text
(lines 283-286). -/
def cleanFence (s : String) : String :=
  ⟨jsTrim (dropFenceClose (dropFenceOpen s.data))⟩

/-- The shape of the candidate content of a response body, as the
guard on line 279 and the access chain on line 280 distinguish it:
`absent` when `data.candidates`, `data.candidates[0]` or its
`.content` is missing (guard false, fall through to the final
`return null`); `withoutText` when `.content` exists but
`.parts[0].text` does not (the guard does not check this far, and the
chain `content.parts[0].text` - or the subsequent `.replace` on the
undefined text - raises a TypeError); `withText t` when the full
chain is present. -/
inductive CandidateContent where
  | absent
  | withoutText
  | withText (text : String)
  deriving DecidableEq

/-- The extraction-service HTTP response as consumed by
`makeGeminiRequest`: `response.ok`, `response.status`, and the shape
of the candidate content chain. -/
structure GeminiHttpResponse where
  ok : Bool
  status : Nat
  content : CandidateContent
  deriving DecidableEq

/-- The promise outcome of `makeGeminiRequest`: `thrown status` is the
Error built for a non-ok response, carrying `error.status` (lines
270-274); `typeError` is the TypeError raised by the property chain on
line 280 (or the `.replace` on line 284) when the candidate content
has no `parts[0].text` - it carries no status field, so the catch in
processQueue sees `error.status` as undefined and rejects the item;
`returned` is a normal return, where `none` models the JS `null`. -/
inductive ApiResult (α : Type) where
  | thrown (status : Nat)
  | typeError
  | returned (value : Option α)
  deriving DecidableEq

/-- The body of `makeGeminiRequest` after the fetch (lines 270-301),
with `JSON.parse` abstracted as `parse` (`none` models a parse
exception, caught on line 294 and turned into `null`).  A response
missing the candidates/candidate/content chain returns `null`
(line 301); a response whose content lacks `parts[0].text` throws a
TypeError. -/
def makeGeminiRequest (parse : String → Option α) (resp : GeminiHttpResponse) :
    ApiResult α :=
  if resp.ok = false then ApiResult.thrown resp.status
  else
    match resp.content with
    | CandidateContent.withText t => ApiResult.returned (parse (cleanFence t))
    | CandidateContent.withoutText => ApiResult.typeError
    | CandidateContent.absent => ApiResult.returned none

/- ===================================================================
   LocationResolver (src/js/mapService.js, findLocation lines 208-250)
   over the gazetteer CONFIG.knownLocations (src/js/config.js lines
   64-134).
   =================================================================== -/

/-- Lowercasing as applied to the ASCII gazetteer keys and location
fragments (`String.prototype.toLowerCase`; the embedding lowers the
ASCII range, which agrees with JS there). -/
def lowerChars (l : List Char) : List Char := l.map Char.toLower

/-- Models `String.prototype.includes`: contiguous substring containment. -/
def hasSubstr : List Char → List Char → Bool
  | [], k => k.isEmpty
  | c :: cs, k => startsWithChars (c :: cs) k || hasSubstr cs k

/-- CONFIG.knownLocations, in the insertion order of config.js, which
is the iteration order of `Object.entries`. -/
def knownLocations : List (String × ℚ × ℚ) :=
  [("Tel Aviv", 320853 / 10000, 347818 / 10000),
   ("Jerusalem", 317683 / 10000, 352137 / 10000),
   ("Haifa", 327940 / 10000, 349896 / 10000),
   ("Beer Sheva", 312518 / 10000, 347913 / 10000),
   ("Dimona", 310684 / 10000, 350333 / 10000),
   ("Ashkelon", 316689 / 10000, 345715 / 10000),
   ("Ashdod", 317920 / 10000, 346497 / 10000),
   ("Netanya", 323329 / 10000, 348599 / 10000),
   ("Herzliya", 321624 / 10000, 348447 / 10000),
   ("Ramat Gan", 320684 / 10000, 348248 / 10000),
   ("Rehovot", 318928 / 10000, 348113 / 10000),
   ("Rishon LeZion", 319497 / 10000, 348892 / 10000),
   ("Eilat", 295581 / 10000, 349482 / 10000),
   ("Holon", 320103 / 10000, 347792 / 10000),
   ("Petah Tikva", 320868 / 10000, 348867 / 10000),
   ("Bat Yam", 320231 / 10000, 347515 / 10000),
   ("Nahariya", 330089 / 10000, 350981 / 10000),
   ("Kiryat Gat", 316100 / 10000, 347642 / 10000),
   ("Kiryat Shmona", 332075 / 10000, 355691 / 10000),
   ("Acre", 329281 / 10000, 350820 / 10000),
   ("Tehran", 356892 / 10000, 513890 / 10000),
   ("Isfahan", 326546 / 10000, 516680 / 10000),
   ("Natanz", 335133 / 10000, 519244 / 10000),
   ("Bushehr", 289684 / 10000, 508385 / 10000),
   ("Tabriz", 380800 / 10000, 462919 / 10000),
   ("Shiraz", 295917 / 10000, 525836 / 10000),
   ("Kerman", 302839 / 10000, 570834 / 10000),
   ("Yazd", 318974 / 10000, 543569 / 10000),
   ("Arak", 340954 / 10000, 497013 / 10000),
   ("Qom", 346416 / 10000, 508746 / 10000),
   ("Karaj", 358400 / 10000, 509391 / 10000),
   ("Mashhad", 362605 / 10000, 596168 / 10000),
   ("Bandar Abbas", 271832 / 10000, 562666 / 10000),
   ("Kermanshah", 343277 / 10000, 470778 / 10000),
   ("Hamadan", 347983 / 10000, 485148 / 10000),
   ("Urmia", 375527 / 10000, 450759 / 10000),
   ("Khorramabad", 334374 / 10000, 483557 / 10000),
   ("Ahvaz", 313183 / 10000, 486706 / 10000),
   ("Chabahar", 252919 / 10000, 606430 / 10000),
   ("Zanjan", 366736 / 10000, 484787 / 10000),
   ("Fordow", 348847 / 10000, 514717 / 10000),
   ("Shahr-e Ray", 355830 / 10000, 514394 / 10000),
   ("Robat Karim", 354847 / 10000, 510833 / 10000),
   ("Baherestan", 355266 / 10000, 511677 / 10000),
   ("Malard", 356658 / 10000, 509767 / 10000),
   ("Parchin", 355258 / 10000, 517731 / 10000),
   ("Kashan", 339850 / 10000, 514100 / 10000),
   ("Dimona Nuclear", 310684 / 10000, 350333 / 10000),
   ("Natanz Nuclear", 335133 / 10000, 519244 / 10000),
   ("Fordow Nuclear", 348847 / 10000, 514717 / 10000),
   ("Bushehr Nuclear", 289684 / 10000, 508385 / 10000),
   ("Parchin Military", 355258 / 10000, 517731 / 10000),
   ("Isfahan Nuclear", 326546 / 10000, 516680 / 10000),
   ("Khojir Missile", 356891 / 10000, 517371 / 10000),
   ("Damascus", 335138 / 10000, 362765 / 10000),
   ("Beirut", 338938 / 10000, 355018 / 10000),
   ("Gaza", 315017 / 10000, 344668 / 10000),
   ("West Bank", 320000 / 10000, 352500 / 10000),
   ("Golan Heights", 329784 / 10000, 357471 / 10000),
   ("Semnan", 355729 / 10000, 533971 / 10000),
   ("Bandar-e Mahshahr", 305589 / 10000, 491981 / 10000),
   ("Khondab", 343139 / 10000, 491847 / 10000)]

/-- Tests whether the regex alternative `w` matches at the start of `l`
under the `i` flag followed by at least one `\s` character (the pattern
`^(..)\s+`): the lowercased input starts with the lowercase word and
the next character is whitespace. -/
def matchesWord (w : List Char) (l : List Char) : Bool :=
  startsWithChars (lowerChars l) w &&
    (match l.drop w.length with
     | [] => false
     | c :: _ => isJsSpace c)

/-- Models `replace(/^(..)\s+/i, '')` for a given alternation list: when one
of the words matches at the start (the alternatives are tried left to
right; none of them is a prefix of another, so at most one can match),
the word and the greedy run of whitespace after it are removed. -/
def stripLeadingWord (words : List (List Char)) (l : List Char) : List Char :=
  match words.find? (fun w => matchesWord w l) with
  | some w => (l.drop w.length).dropWhile isJsSpace
  | none => l

/-- The punctuation class `[,.;]` of the truncation regex. -/
def isSepChar (c : Char) : Bool := c = ',' || c = '.' || c = ';'

/-- Models `replace(/[,.;].*$/, '')` (line 214): the pattern matches at a
position exactly when a separator stands there and no line terminator
follows it (a non-dotAll `.*` cannot cross a line terminator and the
unanchored `$` only matches at the end of the string); the leftmost
match is removed, which truncates the string there. -/
def truncAtSep : List Char → List Char
  | [] => []
  | c :: cs =>
      if isSepChar c && cs.all (fun d => !isLineTerm d) then []
      else c :: truncAtSep cs

/-- The alternation `(in|at|near|from|to)` of the prefix-stripping
regex on line 213 of findLocation. -/
def codePrefixWords : List (List Char) :=
  ["in".data, "at".data, "near".data, "from".data, "to".data]

/-- The `cleanName` computation of findLocation (lines 212-214):
trim, strip a leading positional preposition, truncate at the first
comma, period or semicolon. -/
def cleanLocationName (s : String) : List Char :=
  truncAtSep (stripLeadingWord codePrefixWords (jsTrim s.data))

/-- A resolver hit: canonical name plus gazetteer coordinate. -/
structure ResolvedLocation where
  name : String
  lat : Option ℚ
  lon : Option ℚ
  deriving DecidableEq

/-- The own property names every plain JS object literal inherits from
`Object.prototype`.  A property read `CONFIG.knownLocations[name]`
with one of these names yields the inherited function or object, which
is truthy, even though the gazetteer has no such own key. -/
def objectProtoProps : List String :=
  ["constructor", "hasOwnProperty", "isPrototypeOf", "propertyIsEnumerable",
   "toLocaleString", "toString", "valueOf", "__proto__",
   "__defineGetter__", "__defineSetter__", "__lookupGetter__", "__lookupSetter__"]

/-- The second and third match tiers of findLocation (lines 225-246):
both iterate `Object.entries(CONFIG.knownLocations)`, which lists only
the own enumerable keys in insertion order; first a case-insensitive
exact match, then the first gazetteer key contained case-insensitively
as a substring; otherwise `null`. -/
def resolveTiers (cleanName : List Char) : Option ResolvedLocation :=
  let lowerName := lowerChars cleanName
  match knownLocations.find? (fun e => lowerChars e.1.data == lowerName) with
  | some e => some ⟨e.1, some e.2.1, some e.2.2⟩
  | none =>
      match knownLocations.find?
          (fun e => hasSubstr lowerName (lowerChars e.1.data)) with
      | some e => some ⟨e.1, some e.2.1, some e.2.2⟩
      | none => none

/-- The match tiers of findLocation applied to a cleaned name (lines
216-249).  Tier 1 is the truthiness test
`if (CONFIG.knownLocations[cleanName])` (line 217), a JS property
read: an own gazetteer key yields its coordinate record, but a name
inherited from `Object.prototype` (see `objectProtoProps`) also yields
a truthy value, and the returned
`{ name: cleanName, ...CONFIG.knownLocations[cleanName] }` then spreads
a function or prototype object with no own enumerable properties, so
the hit carries the cleaned name and no coordinates.  Only when the
read is falsy do the `Object.entries` tiers run. -/
def resolveClean (cleanName : List Char) : Option ResolvedLocation :=
  match knownLocations.find? (fun e => e.1.data == cleanName) with
  | some e => some ⟨String.mk cleanName, some e.2.1, some e.2.2⟩
  | none =>
      if objectProtoProps.contains (String.mk cleanName) then
        some ⟨String.mk cleanName, none, none⟩
      else resolveTiers cleanName

/-- The tiers as the claim words them: a case-sensitive exact
gazetteer match, then the `Object.entries` tiers - without the
prototype-chain artifact of the property read. -/
def specResolveClean (cleanName : List Char) : Option ResolvedLocation :=
  match knownLocations.find? (fun e => e.1.data == cleanName) with
  | some e => some ⟨String.mk cleanName, some e.2.1, some e.2.2⟩
  | none => resolveTiers cleanName

/-- findLocation (lines 208-250). -/
def findLocation (s : String) : Option ResolvedLocation :=
  resolveClean (cleanLocationName s)

/-- The five prepositions of the source regex, as a word list for the
spec-side normalization. -/
def specPrepsFive : List (List Char) :=
  ["in".data, "at".data, "near".data, "from".data, "to".data]

/-- The six prepositions named by the claim (the source regex lacks
`towards`). -/
def specPrepsSix : List (List Char) :=
  ["in".data, "at".data, "near".data, "from".data, "to".data, "towards".data]

/-- Normalization as the specification words it: trim, strip a leading
positional preposition from the given list, truncate at the first
comma, period or semicolon. -/
def specNormalize (preps : List (List Char)) (s : String) : List Char :=
  (stripLeadingWord preps (jsTrim s.data)).takeWhile (fun c => !isSepChar c)

/-- The resolver as the claim describes it, parameterized by the
preposition list of its normalization step. -/
def specResolve (preps : List (List Char)) (s : String) : Option ResolvedLocation :=
  specResolveClean (specNormalize preps s)

/- ===================================================================
   MarkerClusterer and ColorModel (src/js/mapService.js,
   calculateMarkerOffset lines 252-290, updateDateRange lines 292-300,
   getColorForDate lines 302-333).
   =================================================================== -/

/-- The base offset in degrees, about 1.5 km (line 266). -/
def baseOffset : ℚ := 15 / 1000

/-- calculateMarkerOffset (lines 252-290) as a function of the cluster
occupancy `index` (the length of the cluster list at call time) and of
the coordinate.  JS Math.PI, Math.cos and Math.sin return doubles,
modelled as the rational parameters `jsPi`, `jsCos`, `jsSin`.  The
source reads `location.lat || (location.position && location.position.lat)`;
for the location objects built by addIncident there is no `position`
field, so a coordinate equal to 0 (falsy) makes the whole expression
`undefined` and the function returns the zero offset (lines 256-259). -/
def calculateMarkerOffset (jsPi : ℚ) (jsCos jsSin : ℚ → ℚ)
    (lat lon : ℚ) (index : Nat) : ℚ × ℚ :=
  if lat = 0 ∨ lon = 0 then (0, 0)
  else
    match index with
    | 0 => (0, 0)
    | 1 => (baseOffset, 0)
    | 2 => (-baseOffset * (866 / 1000), baseOffset * (5 / 10))
    | 3 => (-baseOffset * (866 / 1000), -baseOffset * (5 / 10))
    | 4 => (0, baseOffset)
    | 5 => (0, -baseOffset)
    | n + 6 =>
        let angle : ℚ := (((n + 6 : Nat) : ℚ) * jsPi * 2) / 6
        let ringIndex : ℚ := ((n / 6 : Nat) : ℚ) + 2
        (baseOffset * ringIndex * jsCos angle, baseOffset * ringIndex * jsSin angle)

/-- updateDateRange (lines 292-300) on the pair
(newestDate, oldestDate); `none` models the constructor value `null`. -/
def updateDateRange (newest oldest : Option ℚ) (t : ℚ) : Option ℚ × Option ℚ :=
  (match newest with
   | none => some t
   | some n => if t > n then some t else some n,
   match oldest with
   | none => some t
   | some o => if t < o then some t else some o)

/-- An HSL color triple.  The hex literal `#ff0000` returned by the
single-marker branch denotes the same color as hsl(0, 100%, 50%). -/
structure HslColor where
  hue : ℤ
  saturation : ℚ
  lightness : ℚ
  deriving DecidableEq

/-- The color of the single-marker branch, `#ff0000` = hsl(0,100%,50%). -/
def pureRed : HslColor := ⟨0, 100, 50⟩

/-- JS `Math.round`: round half toward positive infinity. -/
def jsRound (q : ℚ) : ℤ := ⌊q + 1 / 2⌋

/-- getColorForDate (lines 302-333), reduced to the HSL values it
interpolates (the three returned strings all display this triple). -/
def getColorForDate (newest oldest : Option ℚ) (t : ℚ) : HslColor :=
  match newest, oldest with
  | some n, some o =>
      if n = o then pureRed
      else
        let totalRange := n - o
        let ageFromNewest := n - t
        let relativeAge := ageFromNewest / totalRange
        ⟨min 60 (jsRound (relativeAge * 60)), 100,
          min (50 + relativeAge * 20) 70⟩
  | _, _ => pureRed

/-- The color the claim describes: same formulas but with
`relativeAge` clamped to [0, 1]. -/
def claimedColorForDate (newest oldest : Option ℚ) (t : ℚ) : HslColor :=
  match newest, oldest with
  | some n, some o =>
      if n = o then pureRed
      else
        let relativeAge := min 1 (max 0 ((n - t) / (n - o)))
        ⟨min 60 (jsRound (relativeAge * 60)), 100,
          min (50 + relativeAge * 20) 70⟩
  | _, _ => pureRed

/- ===================================================================
   IncidentStore (src/js/mapService.js): addIncident lines 617-767,
   removeIncident lines 1072-1112, clearOldIncidents lines 1114-1122,
   clearAllIncidents lines 1124-1179, isValidCoordinate lines
   1307-1318, parseTimestamp lines 1335-1345.
   =================================================================== -/

/-- Raw coordinate fields of an incident record after `parseFloat`:
`none` models a missing field or one that parses to NaN. -/
structure IncidentCoords where
  lat : Option ℚ
  lon : Option ℚ
  lng : Option ℚ
  deriving DecidableEq

/-- The `finalData.timestamp` field as seen through `new Date`:
`missing` models a falsy value (absent, null, empty string),
`invalid` a value whose Date is NaN, `valid ms` a date with the given
epoch milliseconds. -/
inductive JsTimestampField where
  | missing
  | invalid
  | valid (ms : ℚ)
  deriving DecidableEq

/-- The incident record consumed by addIncident.  Only the fields the
verified operations inspect are modelled: the coordinate source chain
`position` / `location` / direct properties, the id and the timestamp.
The descriptive attributes (name, type, targetType, weaponType,
casualties, impactRadius, ...) are copied through unchanged by the
source and never branched on. -/
structure IncidentData where
  id : String
  position : Option IncidentCoords
  location : Option IncidentCoords
  direct : IncidentCoords
  timestamp : JsTimestampField
  deriving DecidableEq

/-- JS `a || b` on two already-parsed numbers: a number is falsy
exactly when it is 0 (or NaN, modelled by `none`). -/
def jsOrNum (a b : Option ℚ) : Option ℚ :=
  match a with
  | some q => if q = 0 then b else some q
  | none => b

/-- The coordinate extraction of addIncident (lines 634-650): try the
`position` object, else the `location` object, else the direct
properties; in each case `lon` falls back to `lng` through `||`. -/
def extractCoords (d : IncidentData) : Option ℚ × Option ℚ :=
  match d.position with
  | some p => (p.lat, jsOrNum p.lon p.lng)
  | none =>
      match d.location with
      | some p => (p.lat, jsOrNum p.lon p.lng)
      | none => (d.direct.lat, jsOrNum d.direct.lon d.direct.lng)

/-- isValidCoordinate (lines 1307-1318).  The `typeof` and `isNaN`
guards reject exactly the `none` cases of the model. -/
def isValidCoordinate (lat lon : Option ℚ) : Bool :=
  match lat, lon with
  | some la, some lo =>
      if la = 0 ∧ lo = 0 then false
      else if la < -90 ∨ la > 90 then false
      else if lo < -180 ∨ lo > 180 then false
      else true
  | _, _ => false

/-- parseTimestamp (lines 1335-1345): a falsy or unparseable timestamp
becomes the current time `now`. -/
def parseTimestamp (now : ℚ) : JsTimestampField → ℚ
  | JsTimestampField.missing => now
  | JsTimestampField.invalid => now
  | JsTimestampField.valid t => t

/-- The slice of a stored location record the verified operations
read: id, coordinate and timestamp (epoch milliseconds). -/
structure StoredLocation where
  id : String
  lat : ℚ
  lon : ℚ
  timestamp : ℚ
  deriving DecidableEq

/-- An element of a `markerClusters` array: the wrapper object
`{marker, location, offset}` pushed at line 725, with the mapbox
marker object represented by its allocation number. -/
structure ClusterEntry where
  marker : Nat
  location : StoredLocation
  offset : ℚ × ℚ
  deriving DecidableEq

/-- A value of the `markers` map (lines 738-749): marker object,
timestamp, and the unadjusted location. -/
structure MarkerData where
  marker : Nat
  timestamp : ℚ
  originalLocation : StoredLocation
  deriving DecidableEq

/-- Association-list lookup, modelling `Map.prototype.get` /
`Map.prototype.has`. -/
def alistGet {κ β : Type} [DecidableEq κ] : List (κ × β) → κ → Option β
  | [], _ => none
  | e :: es, k => if e.1 = k then some e.2 else alistGet es k

/-- Models `Map.prototype.set`: update the existing entry in place, else
append, preserving insertion order. -/
def alistSet {κ β : Type} [DecidableEq κ] : List (κ × β) → κ → β → List (κ × β)
  | [], k, v => [(k, v)]
  | e :: es, k, v => if e.1 = k then (k, v) :: es else e :: alistSet es k v

/-- Models `Map.prototype.delete`. -/
def alistErase {κ β : Type} [DecidableEq κ] : List (κ × β) → κ → List (κ × β)
  | [], _ => []
  | e :: es, k => if e.1 = k then es else e :: alistErase es k

/-- The MapService state owned by the store: the `markers` map keyed
by incident id, the `markerClusters` map keyed by the quantized
coordinate (the template string of two distinct numbers is faithfully
a pair), the time window, and an allocation counter for marker
objects.  The rendered DOM/layer objects live in the external map
library and carry no store state. -/
structure MapState where
  markers : List (String × MarkerData)
  markerClusters : List ((ℚ × ℚ) × List ClusterEntry)
  newestDate : Option ℚ
  oldestDate : Option ℚ
  nextMarkerId : Nat
  deriving DecidableEq

/-- The store right after the constructor: empty maps, null window. -/
def initMapState : MapState := ⟨[], [], none, none, 0⟩

/-- addIncident (lines 617-767).  `fb` is the external Firebase lookup
of `getIncidentFromFirebase` (line 630); `now` the wall clock read by
`new Date()`; `jsPi`, `jsCos`, `jsSin` the Math library.  Early
returns: missing or empty id (line 619, empty string is falsy),
already-present id (line 624), invalid coordinates (line 653).
Otherwise the time window is updated, the cluster for the coordinate
key is created if absent, the offset computed from the current
occupancy, the wrapper pushed, and the marker stored under
`finalData.id` (line 749).  The timestamp re-check on line 682 is
unreachable because parseTimestamp always returns a valid date. -/
def addIncident (fb : String → Option IncidentData) (now : ℚ) (jsPi : ℚ)
    (jsCos jsSin : ℚ → ℚ) (st : MapState) (incident : IncidentData) : MapState :=
  if incident.id = "" then st
  else if (alistGet st.markers incident.id).isSome then st
  else
    let finalData := (fb incident.id).getD incident
    let c := extractCoords finalData
    if isValidCoordinate c.1 c.2 then
      match c.1, c.2 with
      | some lat, some lon =>
          let ts := parseTimestamp now finalData.timestamp
          let w := updateDateRange st.newestDate st.oldestDate ts
          let key := (lat, lon)
          let clusters0 :=
            if (alistGet st.markerClusters key).isSome then st.markerClusters
            else st.markerClusters ++ [(key, [])]
          let cluster := (alistGet clusters0 key).getD []
          let off := calculateMarkerOffset jsPi jsCos jsSin lat lon cluster.length
          let loc : StoredLocation := ⟨finalData.id, lat, lon, ts⟩
          let adjusted : StoredLocation :=
            { loc with lat := lat + off.1, lon := lon + off.2 }
          let markerId := st.nextMarkerId
          { markers := alistSet st.markers finalData.id ⟨markerId, ts, loc⟩
            markerClusters := alistSet clusters0 key (cluster ++ [⟨markerId, adjusted, off⟩])
            newestDate := w.1
            oldestDate := w.2
            nextMarkerId := markerId + 1 }
      | _, _ => st
    else st

/-- The strict-equality test performed by `cluster.indexOf(marker)` in
removeIncident (line 1099).  The elements of the cluster array are the
wrapper objects pushed at line 725 (fields marker, location, offset);
an object literal is a fresh allocation, so no element is ever
reference-equal to the marker object, and the comparison is false for
every element. -/
def clusterElemEqMarker (_e : ClusterEntry) (_m : Nat) : Bool := false

/-- removeIncident (lines 1072-1112): no-op on an unknown id; else the
marker entry is deleted, and the cluster of the original coordinate is
spliced at `cluster.indexOf(marker)` when that index is not -1, with
the key deleted when the spliced cluster is empty. -/
def removeIncident (st : MapState) (id : String) : MapState :=
  match alistGet st.markers id with
  | none => st
  | some md =>
      let key := (md.originalLocation.lat, md.originalLocation.lon)
      let clusters :=
        match alistGet st.markerClusters key with
        | none => st.markerClusters
        | some cluster =>
            let idx := cluster.findIdx? (fun e => clusterElemEqMarker e md.marker)
            let cluster1 :=
              match idx with
              | some i => cluster.eraseIdx i
              | none => cluster
            if cluster1.length = 0 then alistErase st.markerClusters key
            else alistSet st.markerClusters key cluster1
      { st with markers := alistErase st.markers id, markerClusters := clusters }

/-- clearOldIncidents (lines 1114-1122): removeIncident on every
stored id whose timestamp age exceeds `maxAge` at wall-clock `now`. -/
def clearOldIncidents (now maxAge : ℚ) (st : MapState) : MapState :=
  (st.markers.filter (fun e => decide (now - e.2.timestamp > maxAge))).foldl
    (fun s e => removeIncident s e.1) st

/-- clearAllIncidents (lines 1124-1179): tears down every marker
(keeping those whose id starts with `manual-` when `preserveManual`)
and clears the cluster map.  The time window fields are not touched by
the source. -/
def clearAllIncidents (preserveManual : Bool) (st : MapState) : MapState :=
  { st with
    markers :=
      if preserveManual then st.markers.filter (fun e => e.1.startsWith "manual-")
      else []
    markerClusters := [] }

/-- The full recomputation of the time window from the live incidents,
as the claim asserts bulk removal performs; the source has no such
code, so this is the claim-side definition used to compare against the
embedded clear operations. -/
def recomputeWindow (markers : List (String × MarkerData)) : Option ℚ × Option ℚ :=
  markers.foldl (fun w e => updateDateRange w.1 w.2 e.2.timestamp) (none, none)

/-- The invariant tying the two window fields together: both null or
both set with oldest at most newest. -/
def windowInv (newest oldest : Option ℚ) : Prop :=
  match newest, oldest with
  | none, none => True
  | some n, some o => o ≤ n
  | _, _ => False

/- ===================================================================
   Concrete fixtures used by the claim witnesses and counterexamples.
   =================================================================== -/

/-- Extraction-service behavior of spec Scenario D: the first two
requests are rate limited, the third succeeds. -/
def c1Oracle : Nat → GeminiOutcome Nat :=
  fun n => if n < 2 then GeminiOutcome.failure 429 else GeminiOutcome.success 7

/-- An extraction service that always answers 429. -/
def always429 : Nat → GeminiOutcome Nat := fun _ => GeminiOutcome.failure 429

/-- A successful HTTP response whose candidate text is not JSON. -/
def parseFailFixture : GeminiHttpResponse :=
  ⟨true, 200, CandidateContent.withText "no json here"⟩

/-- A successful HTTP response whose candidate has content but no
`parts[0].text`. -/
def partsMissingFixture : GeminiHttpResponse :=
  ⟨true, 200, CandidateContent.withoutText⟩

/-- A Firebase store with no records. -/
def fbNone : String → Option IncidentData := fun _ => none

/-- A degenerate stand-in for the Math trigonometric functions. -/
def zeroFun : ℚ → ℚ := fun _ => 0

/-- Builds an incident record carrying only direct coordinates. -/
def mkInc (id : String) (lat lon : Option ℚ) (ts : JsTimestampField) : IncidentData :=
  ⟨id, none, none, ⟨lat, lon, none⟩, ts⟩

/-- A valid incident at an integer-valued in-range coordinate. -/
def incA : IncidentData := mkInc "a" (some 32) (some 34) (JsTimestampField.valid 5000)

/-- The store holding exactly `incA`. -/
def st1 : MapState := addIncident fbNone 0 0 zeroFun zeroFun initMapState incA

/-- An incident whose coordinates fail validation ((0,0) is rejected). -/
def iBad : IncidentData := mkInc "x" (some 0) (some 0) (JsTimestampField.valid 1000)

/-- A valid incident with the same id as `iBad`. -/
def jGood : IncidentData := mkInc "x" (some 32) (some 34) (JsTimestampField.valid 1000)

/-- A valid incident dated at epoch-millisecond 2000. -/
def incA2000 : IncidentData := mkInc "a" (some 32) (some 34) (JsTimestampField.valid 2000)

/-- A valid incident with a missing timestamp. -/
def incBMissing : IncidentData := mkInc "b" (some 31) (some 35) JsTimestampField.missing

/-- Store holding `incA2000`, added at wall-clock 0. -/
def st3 : MapState := addIncident fbNone 0 0 zeroFun zeroFun initMapState incA2000

/-- Store after also adding `incBMissing` at wall-clock 1000, which is
earlier than the stored timestamp 2000. -/
def st4 : MapState := addIncident fbNone 1000 0 zeroFun zeroFun st3 incBMissing

/- ===================================================================
   Invariant threaded through one activation of the scheduler loop.
   =================================================================== -/

/-- The activation invariant at base delay `d0`: the delay never
exceeds the ceiling and never went below `d0`; the waits logged so far
are non-decreasing and bounded between `d0` and the current delay. -/
def BatchInv (d0 : Nat) (rs : RunState α) : Prop :=
  rs.retryDelay ≤ maxRetryDelay ∧ d0 ≤ rs.retryDelay ∧
  List.Pairwise (· ≤ ·) (waitsOf rs.events) ∧
  ∀ w ∈ waitsOf rs.events, d0 ≤ w ∧ w ≤ rs.retryDelay

/- ===================================================================
   Helper lemmas.
   =================================================================== -/

theorem waitsOf_append (l1 l2 : List (SchedEvent α)) :
    waitsOf (l1 ++ l2) = waitsOf l1 ++ waitsOf l2 :=
  List.filterMap_append l1 l2 _

theorem pairwise_snoc {l : List Nat} {d : Nat}
    (hp : List.Pairwise (· ≤ ·) l) (hb : ∀ w ∈ l, w ≤ d) :
    List.Pairwise (· ≤ ·) (l ++ [d]) := by
  rw [List.pairwise_append]
  refine ⟨hp, List.pairwise_singleton _ _, ?_⟩
  intro a ha b hbmem
  rcases List.mem_singleton.mp hbmem with rfl
  exact hb a ha

theorem stepItem_delay_mono (oracle : Nat → GeminiOutcome α) (item : QItem)
    (isFirst : Bool) (rs : RunState α) (hcap : rs.retryDelay ≤ maxRetryDelay) :
    rs.retryDelay ≤ (stepItem oracle item isFirst rs).retryDelay ∧
      (stepItem oracle item isFirst rs).retryDelay ≤ maxRetryDelay := by
  unfold stepItem
  cases isFirst <;>
    simp only [Bool.false_eq_true, if_false, if_true] <;>
    rcases oracle rs.attempts with a | status <;>
    simp only [] <;>
    first
      | exact ⟨le_refl _, hcap⟩
      | (split
         · constructor
           · exact le_min (Nat.le_mul_of_pos_right _ (by norm_num)) hcap
           · exact min_le_right _ _
         · exact ⟨le_refl _, hcap⟩)

theorem batchInv_extend {d0 : Nat} {rs : RunState α} (h : BatchInv d0 rs)
    (q : List QItem) (a : Nat) (d : Nat) (es : List (SchedEvent α)) (ws : List Nat)
    (hd : rs.retryDelay ≤ d) (hcap : d ≤ maxRetryDelay)
    (hes : waitsOf es = ws)
    (hws : ∀ w ∈ ws, rs.retryDelay ≤ w ∧ w ≤ d)
    (hwpw : List.Pairwise (· ≤ ·) ws) :
    BatchInv d0 ⟨q, d, a, rs.events ++ es⟩ := by
  obtain ⟨hc, h0, hpw, hbd⟩ := h
  refine ⟨hcap, le_trans h0 hd, ?_, ?_⟩
  · show List.Pairwise (· ≤ ·) (waitsOf (rs.events ++ es))
    rw [waitsOf_append, hes, List.pairwise_append]
    refine ⟨hpw, hwpw, ?_⟩
    intro x hx y hy
    exact le_trans (hbd x hx).2 (hws y hy).1
  · intro w hw
    rw [show (⟨q, d, a, rs.events ++ es⟩ : RunState α).events = rs.events ++ es from rfl,
      waitsOf_append, hes] at hw
    rcases List.mem_append.mp hw with hw1 | hw2
    · exact ⟨(hbd w hw1).1, le_trans (hbd w hw1).2 hd⟩
    · exact ⟨le_trans h0 (hws w hw2).1, (hws w hw2).2⟩

theorem stepItem_inv {d0 : Nat} (oracle : Nat → GeminiOutcome α) (item : QItem)
    (isFirst : Bool) (rs : RunState α) (h : BatchInv d0 rs) :
    BatchInv d0 (stepItem oracle item isFirst rs) := by
  have hwait : BatchInv d0
      (⟨rs.queue, rs.retryDelay, rs.attempts,
        rs.events ++ [SchedEvent.waited rs.retryDelay]⟩ : RunState α) :=
    batchInv_extend h _ _ _ _ [rs.retryDelay] (le_refl _) h.1 rfl
      (by intro w hw; rcases List.mem_singleton.mp hw with rfl
          exact ⟨le_refl _, le_refl _⟩)
      (List.pairwise_singleton _ _)
  have main : ∀ rs1 : RunState α, BatchInv d0 rs1 → ∀ att : Nat,
      BatchInv d0 (match oracle att with
        | GeminiOutcome.success a =>
            { rs1 with
              attempts := rs1.attempts + 1
              events := rs1.events ++ [SchedEvent.resolved item.pid a]
              queue := rs1.queue.tail }
        | GeminiOutcome.failure status =>
            if status = 429 ∧ rcLtTwo item.retryCount then
              { rs1 with
                retryDelay := min (rs1.retryDelay * 2) maxRetryDelay
                attempts := rs1.attempts + 1
                queue := (rs1.queue ++
                  [{ item with retryCount := some (item.retryCount.getD 0 + 1) }]).tail
                events := rs1.events ++
                  [SchedEvent.waited (min (rs1.retryDelay * 2) maxRetryDelay)] }
            else
              { rs1 with
                attempts := rs1.attempts + 1
                events := rs1.events ++ [SchedEvent.rejected item.pid status]
                queue := rs1.queue.tail }) := by
    intro rs1 h1 att
    rcases oracle att with a | status <;> dsimp only
    · exact batchInv_extend h1 _ _ _ _ [] (le_refl _) h1.1 rfl (by simp) List.Pairwise.nil
    · split
      · refine batchInv_extend h1 _ _ _ _ [min (rs1.retryDelay * 2) maxRetryDelay]
          (le_min (by omega) h1.1) (min_le_right _ _) rfl ?_ (List.pairwise_singleton _ _)
        intro w hw; rcases List.mem_singleton.mp hw with rfl
        exact ⟨le_min (by omega) h1.1, le_refl _⟩
      · exact batchInv_extend h1 _ _ _ _ [] (le_refl _) h1.1 rfl (by simp) List.Pairwise.nil
  cases isFirst
  · exact main _ hwait _
  · exact main _ h _

theorem runBatch_inv {d0 : Nat} (oracle : Nat → GeminiOutcome α) (items : List QItem) :
    ∀ (isFirst : Bool) (rs : RunState α), BatchInv d0 rs →
      BatchInv d0 (runBatch oracle items isFirst rs) := by
  induction items with
  | nil => intro isFirst rs h; exact h
  | cons it its ih =>
      intro isFirst rs h
      exact ih false _ (stepItem_inv oracle it isFirst rs h)

theorem processQueue_spec (oracle : Nat → GeminiOutcome α) (st : SchedState α)
    (hcap : st.retryDelay ≤ maxRetryDelay) :
    st.retryDelay ≤ (processQueue oracle st).1.retryDelay ∧
    (processQueue oracle st).1.retryDelay ≤ maxRetryDelay ∧
    List.Pairwise (· ≤ ·) (waitsOf (processQueue oracle st).2) ∧
    ∀ w ∈ waitsOf (processQueue oracle st).2,
      st.retryDelay ≤ w ∧ w ≤ (processQueue oracle st).1.retryDelay := by
  have h0 : BatchInv st.retryDelay (⟨st.queue, st.retryDelay, 0, []⟩ : RunState α) :=
    ⟨hcap, le_refl _, by simp [waitsOf], by simp [waitsOf]⟩
  have hb := runBatch_inv oracle (st.queue.take maxQueueSize) true _ h0
  obtain ⟨hc, hlow, hpw, hbd⟩ := hb
  have hpq : processQueue oracle st =
      (if (runBatch oracle (st.queue.take maxQueueSize) true
            ⟨st.queue, st.retryDelay, 0, []⟩).queue.isEmpty then
        (⟨(runBatch oracle (st.queue.take maxQueueSize) true
            ⟨st.queue, st.retryDelay, 0, []⟩).queue,
          (runBatch oracle (st.queue.take maxQueueSize) true
            ⟨st.queue, st.retryDelay, 0, []⟩).retryDelay⟩,
         (runBatch oracle (st.queue.take maxQueueSize) true
            ⟨st.queue, st.retryDelay, 0, []⟩).events)
      else
        (⟨(runBatch oracle (st.queue.take maxQueueSize) true
            ⟨st.queue, st.retryDelay, 0, []⟩).queue,
          (runBatch oracle (st.queue.take maxQueueSize) true
            ⟨st.queue, st.retryDelay, 0, []⟩).retryDelay⟩,
         (runBatch oracle (st.queue.take maxQueueSize) true
            ⟨st.queue, st.retryDelay, 0, []⟩).events ++
           [SchedEvent.waited (runBatch oracle (st.queue.take maxQueueSize) true
            ⟨st.queue, st.retryDelay, 0, []⟩).retryDelay])) := rfl
  rw [hpq]
  split
  · exact ⟨hlow, hc, hpw, hbd⟩
  · refine ⟨hlow, hc, ?_, ?_⟩
    · show List.Pairwise (· ≤ ·) (waitsOf (_ ++ [SchedEvent.waited _]))
      rw [waitsOf_append]
      exact pairwise_snoc hpw (fun w hw => (hbd w hw).2)
    · intro w hw
      rw [waitsOf_append] at hw
      rcases List.mem_append.mp hw with h1 | h2
      · exact ⟨(hbd w h1).1, (hbd w h1).2⟩
      · rcases List.mem_singleton.mp h2 with rfl
        exact ⟨hlow, le_refl _⟩

theorem runActions_spec (acts : List (SchedAction α)) :
    ∀ st : SchedState α, st.retryDelay ≤ maxRetryDelay →
      st.retryDelay ≤ (runActions acts st).1.retryDelay ∧
      (runActions acts st).1.retryDelay ≤ maxRetryDelay ∧
      List.Pairwise (· ≤ ·) (waitsOf (runActions acts st).2) ∧
      ∀ w ∈ waitsOf (runActions acts st).2,
        st.retryDelay ≤ w ∧ w ≤ (runActions acts st).1.retryDelay := by
  induction acts with
  | nil =>
      intro st h
      exact ⟨le_refl _, h, by simp [runActions, waitsOf], by simp [runActions, waitsOf]⟩
  | cons a rest ih =>
      intro st h
      cases a with
      | submit p =>
          have hh := ih (analyzeNewsWithGemini st p) h
          exact hh
      | activate o =>
          have hp := processQueue_spec o st h
          have hr := ih (processQueue o st).1 hp.2.1
          have hrw : runActions (SchedAction.activate o :: rest) st
              = ((runActions rest (processQueue o st).1).1,
                 (processQueue o st).2 ++ (runActions rest (processQueue o st).1).2) := rfl
          rw [hrw]
          refine ⟨le_trans hp.1 hr.1, hr.2.1, ?_, ?_⟩
          · show List.Pairwise (· ≤ ·) (waitsOf (_ ++ _))
            rw [waitsOf_append, List.pairwise_append]
            refine ⟨hp.2.2.1, hr.2.2.1, ?_⟩
            intro x hx y hy
            exact le_trans ((hp.2.2.2) x hx).2 ((hr.2.2.2) y hy).1
          · intro w hw
            rw [show ((runActions rest (processQueue o st).1).1,
                 (processQueue o st).2 ++ (runActions rest (processQueue o st).1).2).2
               = (processQueue o st).2 ++ (runActions rest (processQueue o st).1).2 from rfl,
              waitsOf_append] at hw
            rcases List.mem_append.mp hw with h1 | h2
            · exact ⟨(hp.2.2.2 w h1).1, le_trans (hp.2.2.2 w h1).2 hr.1⟩
            · exact ⟨le_trans hp.1 (hr.2.2.2 w h2).1, (hr.2.2.2 w h2).2⟩

theorem stepItem_429_delay (oracle : Nat → GeminiOutcome α) (item : QItem)
    (isFirst : Bool) (rs : RunState α)
    (h429 : oracle rs.attempts = GeminiOutcome.failure 429)
    (hrc : rcLtTwo item.retryCount = true) :
    (stepItem oracle item isFirst rs).retryDelay = min (rs.retryDelay * 2) maxRetryDelay := by
  cases isFirst <;> simp [stepItem, h429, hrc]

/- ===================================================================
   Claim theorems.
   =================================================================== -/

/-- C1: the claim asserts that an item freshly submitted via
analyzeNewsWithGemini whose requests return 429 twice and then succeed
on the third attempt has its promise resolved.  The code rejects it on
the first 429: the fresh item has no `retryCount` field, the guard
`item.retryCount < 2` evaluates `undefined < 2`, which is false, so
the reject branch runs.  This theorem evaluates the scheduler at that
failing input: one fresh submission, Scenario D outcomes (429, 429,
success), and the promise is rejected with status 429 and the queue
drained, with no retry ever attempted. -/
theorem C1_fresh_item_rejected_on_first_429 :
    runActions [SchedAction.submit 0, SchedAction.activate c1Oracle] (initSchedState Nat)
      = (⟨[], 10000⟩, [SchedEvent.rejected 0 429]) := by
  decide

/-- C2: `retryDelay` starts at 10000 ms; `analyzeNewsWithGemini` never
changes it; the 429-retry branch sets it to `min (retryDelay * 2)
120000`; no step of the loop decreases it or pushes it over the
ceiling; consequently, over any lifetime of submissions and
activations starting from the constructor state, the sequence of
waited delays (inter-request waits, post-429 waits and follow-up
activation delays) is monotonically non-decreasing and stays within
[10000, 120000], as does the final delay. -/
theorem C2_retryDelay_monotone_bounded :
    (∀ α : Type, (initSchedState α).retryDelay = 10000) ∧
    (∀ (α : Type) (st : SchedState α) (p : Nat),
       (analyzeNewsWithGemini st p).retryDelay = st.retryDelay) ∧
    (∀ (α : Type) (oracle : Nat → GeminiOutcome α) (item : QItem)
       (isFirst : Bool) (rs : RunState α),
       oracle rs.attempts = GeminiOutcome.failure 429 →
       rcLtTwo item.retryCount = true →
       (stepItem oracle item isFirst rs).retryDelay
         = min (rs.retryDelay * 2) maxRetryDelay) ∧
    (∀ (α : Type) (oracle : Nat → GeminiOutcome α) (item : QItem)
       (isFirst : Bool) (rs : RunState α),
       rs.retryDelay ≤ maxRetryDelay →
       rs.retryDelay ≤ (stepItem oracle item isFirst rs).retryDelay ∧
       (stepItem oracle item isFirst rs).retryDelay ≤ maxRetryDelay) ∧
    (∀ (α : Type) (acts : List (SchedAction α)),
       List.Pairwise (· ≤ ·) (waitsOf (runActions acts (initSchedState α)).2) ∧
       (∀ w ∈ waitsOf (runActions acts (initSchedState α)).2,
         10000 ≤ w ∧ w ≤ 120000) ∧
       10000 ≤ (runActions acts (initSchedState α)).1.retryDelay ∧
       (runActions acts (initSchedState α)).1.retryDelay ≤ 120000) := by
  refine ⟨fun _ => rfl, fun _ _ _ => rfl, ?_, ?_, ?_⟩
  · intro α oracle item isFirst rs h429 hrc
    exact stepItem_429_delay oracle item isFirst rs h429 hrc
  · intro α oracle item isFirst rs hcap
    exact stepItem_delay_mono oracle item isFirst rs hcap
  · intro α acts
    have hinit : (initSchedState α).retryDelay ≤ maxRetryDelay := by
      norm_num [initSchedState, initRetryDelay, maxRetryDelay]
    have hs := runActions_spec acts (initSchedState α) hinit
    have h10 : (initSchedState α).retryDelay = 10000 := rfl
    have h12 : maxRetryDelay = 120000 := rfl
    refine ⟨hs.2.2.1, ?_, ?_, ?_⟩
    · intro w hw
      have hb := hs.2.2.2 w hw
      constructor
      · calc (10000 : Nat) = (initSchedState α).retryDelay := h10.symm
          _ ≤ w := hb.1
      · calc w ≤ (runActions acts (initSchedState α)).1.retryDelay := hb.2
          _ ≤ maxRetryDelay := hs.2.1
          _ = 120000 := h12
    · calc (10000 : Nat) = (initSchedState α).retryDelay := h10.symm
        _ ≤ (runActions acts (initSchedState α)).1.retryDelay := hs.1
    · calc (runActions acts (initSchedState α)).1.retryDelay
          ≤ maxRetryDelay := hs.2.1
        _ = 120000 := h12

/-- Witness for C2 at a concrete input: a 429 on an item with
`retryCount` 1 doubles the delay to min(20000, 120000), and the step
never lowers the delay. -/
theorem C2_witness :
    (stepItem always429 ⟨0, some 1⟩ true ⟨[⟨0, some 1⟩], 10000, 0, []⟩).retryDelay
      = min (10000 * 2) maxRetryDelay ∧
    10000 ≤ (stepItem always429 ⟨0, some 1⟩ true ⟨[⟨0, some 1⟩], 10000, 0, []⟩).retryDelay :=
  ⟨C2_retryDelay_monotone_bounded.2.2.1 Nat always429 ⟨0, some 1⟩ true
      ⟨[⟨0, some 1⟩], 10000, 0, []⟩ rfl rfl,
   (C2_retryDelay_monotone_bounded.2.2.2.1 Nat always429 ⟨0, some 1⟩ true
      ⟨[⟨0, some 1⟩], 10000, 0, []⟩ (by decide)).1⟩

/-- C9 counterexample: the claim says a response without a candidate
content part also yields null and that malformed model output is never
propagated as a failure; but the guard on line 279 checks the chain
only up to `.content`, so an ok response whose candidate content has
no `parts[0].text` raises a TypeError on line 280, rejecting the
promise instead of returning null. -/
theorem C9_counterexample :
    makeGeminiRequest (fun _ => (none : Option Nat)) partsMissingFixture
      = ApiResult.typeError ∧
    makeGeminiRequest (fun _ => (none : Option Nat)) partsMissingFixture
      ≠ ApiResult.returned none := by
  exact ⟨rfl, by decide⟩

/-- C9 as amended: when the HTTP response is ok and its candidate text
does not parse as JSON after the code fence is stripped and the text
trimmed, makeGeminiRequest returns null (it neither throws nor
rejects), and a response missing the candidates/candidate/content
chain also returns null; but a response whose candidate content lacks
`parts[0].text` throws a TypeError, a propagated failure (the error
carries no status, so processQueue rejects the item without retry). -/
theorem C9_parse_failure_yields_null :
    (∀ (α : Type) (parse : String → Option α) (resp : GeminiHttpResponse) (t : String),
       resp.ok = true → resp.content = CandidateContent.withText t →
       parse (cleanFence t) = none →
       makeGeminiRequest parse resp = ApiResult.returned none) ∧
    (∀ (α : Type) (parse : String → Option α) (resp : GeminiHttpResponse),
       resp.ok = true → resp.content = CandidateContent.absent →
       makeGeminiRequest parse resp = ApiResult.returned none) ∧
    (∀ (α : Type) (parse : String → Option α) (resp : GeminiHttpResponse),
       resp.ok = true → resp.content = CandidateContent.withoutText →
       makeGeminiRequest parse resp = ApiResult.typeError) := by
  refine ⟨?_, ?_, ?_⟩
  · intro α parse resp t hok hct hp
    simp [makeGeminiRequest, hok, hct, hp]
  · intro α parse resp hok hct
    simp [makeGeminiRequest, hok, hct]
  · intro α parse resp hok hct
    simp [makeGeminiRequest, hok, hct]

/-- Witness for C9: a concrete ok response whose text is not JSON
returns null; a concrete ok response with content but no text throws. -/
theorem C9_witness :
    makeGeminiRequest (fun _ => (none : Option Nat)) parseFailFixture
      = ApiResult.returned none ∧
    makeGeminiRequest (fun _ => (none : Option Nat)) partsMissingFixture
      = ApiResult.typeError :=
  ⟨C9_parse_failure_yields_null.1 Nat (fun _ => none) parseFailFixture
     "no json here" rfl rfl rfl,
   C9_parse_failure_yields_null.2.2 Nat (fun _ => none) partsMissingFixture
     rfl rfl⟩

/-- C3 counterexample: the claim asserts occupant index 1 receives the
north offset (+0.015, 0) for every cluster key, but for a key whose
latitude is 0 (a valid coordinate when the longitude is nonzero) the
truthiness fallback in calculateMarkerOffset returns the zero offset
for every occupant. -/
theorem C3_counterexample :
    calculateMarkerOffset 0 zeroFun zeroFun 0 34 1 ≠ (baseOffset, 0) := by
  with_unfolding_all decide

/-- C3 as amended: occupant 0 always maps to (0,0); for cluster keys
with both coordinates nonzero, occupants 1-5 receive the fixed
north/southeast/southwest/east/west offsets and every occupant index
at least 6 receives ringIndex*0.015*(cos angle, sin angle) with
angle = index*2*pi/6 and ringIndex = floor((index-6)/6)+2, where cos,
sin and pi are the Math library values; for keys with a zero
coordinate every occupant receives (0,0).  The offset is a function of
the occupant index alone (given the key), hence deterministic. -/
theorem C3_marker_offsets :
    ∀ (jsPi : ℚ) (jsCos jsSin : ℚ → ℚ) (lat lon : ℚ),
      calculateMarkerOffset jsPi jsCos jsSin lat lon 0 = (0, 0) ∧
      (lat = 0 ∨ lon = 0 →
        ∀ i, calculateMarkerOffset jsPi jsCos jsSin lat lon i = (0, 0)) ∧
      (lat ≠ 0 → lon ≠ 0 →
        calculateMarkerOffset jsPi jsCos jsSin lat lon 1 = (15 / 1000, 0) ∧
        calculateMarkerOffset jsPi jsCos jsSin lat lon 2 = (-(15 / 1000 * (866 / 1000)), 15 / 1000 * (5 / 10)) ∧
        calculateMarkerOffset jsPi jsCos jsSin lat lon 3 = (-(15 / 1000 * (866 / 1000)), -(15 / 1000 * (5 / 10))) ∧
        calculateMarkerOffset jsPi jsCos jsSin lat lon 4 = (0, 15 / 1000) ∧
        calculateMarkerOffset jsPi jsCos jsSin lat lon 5 = (0, -(15 / 1000)) ∧
        ∀ i : Nat, 6 ≤ i →
          calculateMarkerOffset jsPi jsCos jsSin lat lon i =
            ((((i - 6) / 6 + 2 : Nat) : ℚ) * (15 / 1000) * jsCos ((i : ℚ) * 2 * jsPi / 6),
             (((i - 6) / 6 + 2 : Nat) : ℚ) * (15 / 1000) * jsSin ((i : ℚ) * 2 * jsPi / 6))) := by
  intro jsPi jsCos jsSin lat lon
  refine ⟨?_, ?_, ?_⟩
  · by_cases h : lat = 0 ∨ lon = 0 <;> simp [calculateMarkerOffset, h]
  · intro h i
    cases i with
    | zero => simp [calculateMarkerOffset, h]
    | succ m =>
        simp only [calculateMarkerOffset, if_pos h]
  · intro hlat hlon
    have hniff : ¬(lat = 0 ∨ lon = 0) := by tauto
    refine ⟨?_, ?_, ?_, ?_, ?_, ?_⟩
    · norm_num [calculateMarkerOffset, hniff, baseOffset]
    · norm_num [calculateMarkerOffset, hniff, baseOffset]
    · norm_num [calculateMarkerOffset, hniff, baseOffset]
    · norm_num [calculateMarkerOffset, hniff, baseOffset]
    · norm_num [calculateMarkerOffset, hniff, baseOffset]
    · intro i hi
      obtain ⟨k, rfl⟩ : ∃ k, i = k + 6 := ⟨i - 6, by omega⟩
      have hangle : ((k + 6 : Nat) : ℚ) * jsPi * 2 / 6 = ((k + 6 : Nat) : ℚ) * 2 * jsPi / 6 := by
        ring
      simp only [calculateMarkerOffset, if_neg hniff]
      rw [hangle]
      have hring : (k + 6 - 6) / 6 + 2 = k / 6 + 2 := by omega
      rw [hring]
      simp only [Prod.mk.injEq, baseOffset]
      refine ⟨?_, ?_⟩ <;> push_cast <;> ring

/-- Witness for C3 at a concrete input: occupant 13 of a nonzero key,
with sample stand-ins for the trigonometric oracle. -/
theorem C3_witness :
    calculateMarkerOffset 3 (fun q => q) (fun q => q + 1) 1 2 13 =
      ((((13 - 6) / 6 + 2 : Nat) : ℚ) * (15 / 1000) * ((13 : ℚ) * 2 * 3 / 6),
       (((13 - 6) / 6 + 2 : Nat) : ℚ) * (15 / 1000) * ((13 : ℚ) * 2 * 3 / 6 + 1)) :=
  ((C3_marker_offsets 3 (fun q => q) (fun q => q + 1) 1 2).2.2 (by norm_num)
    (by norm_num)).2.2.2.2.2 13 (by norm_num)

/-- C4 counterexample: the claim asserts relativeAge is clamped to
[0,1]; the code does not clamp from below, so a timestamp newer than
the window newest yields hue -60 where the claimed clamped formula
yields hue 0. -/
theorem C4_counterexample :
    getColorForDate (some 100000) (some 0) 200000 = ⟨-60, 100, 30⟩ ∧
    claimedColorForDate (some 100000) (some 0) 200000 = ⟨0, 100, 50⟩ ∧
    getColorForDate (some 100000) (some 0) 200000
      ≠ claimedColorForDate (some 100000) (some 0) 200000 := by
  refine ⟨by with_unfolding_all decide, by with_unfolding_all decide,
    by with_unfolding_all decide⟩

/-- C4 as amended: with oldest = newest the color is pure red
(hue 0, saturation 100, lightness 50); otherwise relativeAge =
(newest - timestamp)/(newest - oldest) is used unclamped, with
hue = min(60, round(relativeAge*60)), saturation 100 and lightness =
min(50 + relativeAge*20, 70); for timestamps inside the window the
clamping the claim mentions is vacuous (relativeAge already lies in
[0,1]), the newest timestamp maps to hue 0 and the oldest to hue 60;
timestamps after the newest can produce negative hue. -/
theorem C4_color_model :
    ∀ n o t : ℚ,
      getColorForDate (some n) (some n) t = ⟨0, 100, 50⟩ ∧
      (o < n → o ≤ t → t ≤ n →
        getColorForDate (some n) (some o) t =
          ⟨min 60 (jsRound ((n - t) / (n - o) * 60)), 100,
            min (50 + (n - t) / (n - o) * 20) 70⟩ ∧
        0 ≤ (n - t) / (n - o) ∧ (n - t) / (n - o) ≤ 1) ∧
      (o < n →
        (getColorForDate (some n) (some o) n).hue = 0 ∧
        (getColorForDate (some n) (some o) o).hue = 60) := by
  intro n o t
  refine ⟨by simp [getColorForDate, pureRed], ?_, ?_⟩
  · intro hno h1 h2
    have hne : n ≠ o := ne_of_gt hno
    have hpos : (0 : ℚ) < n - o := sub_pos.mpr hno
    refine ⟨?_, ?_, ?_⟩
    · simp only [getColorForDate, if_neg hne]
    · exact div_nonneg (sub_nonneg.mpr h2) (le_of_lt hpos)
    · rw [div_le_one hpos]
      linarith
  · intro hno
    have hne : n ≠ o := ne_of_gt hno
    have hpos : (0 : ℚ) < n - o := sub_pos.mpr hno
    constructor
    · simp only [getColorForDate, if_neg hne, sub_self, zero_div, zero_mul, jsRound]
      norm_num
    · simp only [getColorForDate, if_neg hne, div_self (ne_of_gt hpos), jsRound]
      norm_num

/-- Witness for C4 at a concrete window and timestamp. -/
theorem C4_witness :
    getColorForDate (some 10) (some 0) 5 =
      ⟨min 60 (jsRound ((10 - 5) / (10 - 0) * 60)), 100,
        min (50 + (10 - 5) / (10 - 0) * 20) 70⟩ ∧
    (getColorForDate (some 10) (some 0) 10).hue = 0 ∧
    (getColorForDate (some 10) (some 0) 0).hue = 60 :=
  ⟨((C4_color_model 10 0 5).2.1 (by norm_num) (by norm_num) (by norm_num)).1,
   ((C4_color_model 10 0 10).2.2 (by norm_num)).1,
   ((C4_color_model 10 0 0).2.2 (by norm_num)).2⟩

theorem mem_of_mem_dropWhile {α : Type} {p : α → Bool} {l : List α} :
    ∀ a ∈ l.dropWhile p, a ∈ l := by
  induction l with
  | nil => intro a ha; exact ha
  | cons c cs ih =>
      intro a ha
      rw [List.dropWhile_cons] at ha
      by_cases hc : p c = true
      · rw [if_pos hc] at ha
        exact List.mem_cons_of_mem _ (ih a ha)
      · rw [if_neg hc] at ha
        exact ha

theorem mem_of_mem_jsTrim {l : List Char} : ∀ a ∈ jsTrim l, a ∈ l := by
  intro a ha
  unfold jsTrim at ha
  rw [List.mem_reverse] at ha
  have ha2 := mem_of_mem_dropWhile _ ha
  rw [List.mem_reverse] at ha2
  exact mem_of_mem_dropWhile _ ha2

theorem mem_of_mem_stripLeadingWord {words : List (List Char)} {l : List Char} :
    ∀ a ∈ stripLeadingWord words l, a ∈ l := by
  intro a ha
  unfold stripLeadingWord at ha
  cases h : words.find? (fun w => matchesWord w l) with
  | none => rw [h] at ha; exact ha
  | some w =>
      rw [h] at ha
      exact List.drop_subset _ _ (mem_of_mem_dropWhile _ ha)

theorem truncAtSep_eq_takeWhile {l : List Char}
    (h : ∀ c ∈ l, isLineTerm c = false) :
    truncAtSep l = l.takeWhile (fun c => !isSepChar c) := by
  induction l with
  | nil => rfl
  | cons c cs ih =>
      have hall : cs.all (fun d => !isLineTerm d) = true := by
        rw [List.all_eq_true]
        intro d hd
        rw [h d (List.mem_cons_of_mem _ hd)]
        rfl
      by_cases hc : isSepChar c = true
      · simp [truncAtSep, hc, hall, List.takeWhile_cons]
      · have hc2 : isSepChar c = false := by
          cases hx : isSepChar c
          · rfl
          · exact absurd hx hc
        simp [truncAtSep, hc2, hall, List.takeWhile_cons,
          ih (fun d hd => h d (List.mem_cons_of_mem _ hd))]

theorem cleanName_eq_specNormalize {s : String}
    (h : ∀ c ∈ s.data, isLineTerm c = false) :
    cleanLocationName s = specNormalize specPrepsFive s := by
  unfold cleanLocationName specNormalize
  have hw : codePrefixWords = specPrepsFive := rfl
  rw [← hw]
  exact truncAtSep_eq_takeWhile
    (fun c hc => h c (mem_of_mem_jsTrim _ (mem_of_mem_stripLeadingWord _ hc)))

/-- C6 counterexample: the claim lists `towards` among the stripped
prepositions, but the source regex strips only in/at/near/from/to.  On
the input `towards Dimona Nuclear` the claimed pipeline strips the
preposition and hits the exact key `Dimona Nuclear`, while findLocation
leaves the text unchanged and the substring tier hits the earlier key
`Dimona`: the resolved canonical names differ. -/
theorem C6_counterexample :
    findLocation "towards Dimona Nuclear"
      = some ⟨"Dimona", some (310684 / 10000), some (350333 / 10000)⟩ ∧
    specResolve specPrepsSix "towards Dimona Nuclear"
      = some ⟨"Dimona Nuclear", some (310684 / 10000), some (350333 / 10000)⟩ ∧
    findLocation "towards Dimona Nuclear"
      ≠ specResolve specPrepsSix "towards Dimona Nuclear" ∧
    findLocation "constructor" = some ⟨"constructor", none, none⟩ ∧
    findLocation "constructor" ≠ none := by
  have h1 : findLocation "towards Dimona Nuclear"
      = some ⟨"Dimona", some (310684 / 10000), some (350333 / 10000)⟩ := by
    with_unfolding_all rfl
  have h2 : specResolve specPrepsSix "towards Dimona Nuclear"
      = some ⟨"Dimona Nuclear", some (310684 / 10000), some (350333 / 10000)⟩ := by
    with_unfolding_all rfl
  have h3 : findLocation "constructor" = some ⟨"constructor", none, none⟩ := by
    with_unfolding_all rfl
  refine ⟨h1, h2, ?_, h3, ?_⟩
  · rw [h1, h2]
    intro hcontra
    exact absurd (congrArg (fun r => r.map ResolvedLocation.name) hcontra) (by decide)
  · rw [h3]
    exact Option.noConfusion

/-- C6 as amended: for every input without line terminators whose
normalized text is not an `Object.prototype` property name,
findLocation is the claimed pipeline with the preposition list
in/at/near/from/to (`towards` is not stripped): normalize, then
case-sensitive exact match, then case-insensitive exact match, then
first case-insensitively contained gazetteer key, else null; when the
normalized text is an inherited `Object.prototype` property name and
not an own gazetteer key, the tier-1 truthiness test hits the
prototype chain and the resolver returns a coordinate-less hit
carrying the normalized text instead of null; the scenario input
resolves to Tehran through the substring tier; a text matching no tier
(and naming no prototype property) resolves to null. -/
theorem C6_resolver :
    (∀ s : String, (∀ c ∈ s.data, isLineTerm c = false) →
       objectProtoProps.contains (String.mk (cleanLocationName s)) = false →
       findLocation s = specResolve specPrepsFive s) ∧
    (∀ s : String,
       knownLocations.find? (fun e => e.1.data == cleanLocationName s) = none →
       objectProtoProps.contains (String.mk (cleanLocationName s)) = true →
       findLocation s = some ⟨String.mk (cleanLocationName s), none, none⟩) ∧
    findLocation "strikes near Tehran military base"
      = some ⟨"Tehran", some (356892 / 10000), some (513890 / 10000)⟩ ∧
    findLocation "London calling" = none := by
  refine ⟨?_, ?_, ?_, ?_⟩
  · intro s h hproto
    unfold findLocation specResolve
    rw [cleanName_eq_specNormalize h] at hproto ⊢
    unfold resolveClean specResolveClean
    cases hf : knownLocations.find?
        (fun e => e.1.data == specNormalize specPrepsFive s) with
    | some e => rfl
    | none =>
        rw [if_neg (by simpa using hproto)]
  · intro s hf hproto
    unfold findLocation resolveClean
    rw [hf, if_pos hproto]
  · with_unfolding_all rfl
  · with_unfolding_all rfl

/-- Witness for C6 on concrete inputs: a no-prototype input follows
the claimed pipeline; a prototype-named input gets the coordinate-less
hit. -/
theorem C6_witness :
    findLocation "near Qom" = specResolve specPrepsFive "near Qom" ∧
    findLocation "toString" = some ⟨"toString", none, none⟩ :=
  ⟨C6_resolver.1 "near Qom" (by with_unfolding_all decide)
     (by with_unfolding_all rfl),
   C6_resolver.2.1 "toString" (by with_unfolding_all rfl)
     (by with_unfolding_all rfl)⟩

theorem alistGet_set_self {κ β : Type} [DecidableEq κ] (l : List (κ × β)) (k : κ) (v : β) :
    alistGet (alistSet l k v) k = some v := by
  induction l with
  | nil => simp [alistSet, alistGet]
  | cons e es ih =>
      by_cases h : e.1 = k
      · simp [alistSet, h, alistGet]
      · simp [alistSet, h, alistGet, ih]

theorem isValid_some {a b : Option ℚ} (h : isValidCoordinate a b = true) :
    ∃ x y, a = some x ∧ b = some y := by
  cases a with
  | none => simp [isValidCoordinate] at h
  | some la =>
      cases b with
      | none => simp [isValidCoordinate] at h
      | some lo => exact ⟨la, lo, rfl, rfl⟩

theorem addIncident_present_noop (fb : String → Option IncidentData) (now jsPi : ℚ)
    (jsCos jsSin : ℚ → ℚ) (st : MapState) (inc : IncidentData)
    (h : (alistGet st.markers inc.id).isSome = true) :
    addIncident fb now jsPi jsCos jsSin st inc = st := by
  by_cases h0 : inc.id = "" <;> simp [addIncident, h0, h]

theorem addIncident_invalid_noop (fb : String → Option IncidentData) (now jsPi : ℚ)
    (jsCos jsSin : ℚ → ℚ) (st : MapState) (inc : IncidentData)
    (h : isValidCoordinate (extractCoords ((fb inc.id).getD inc)).1
      (extractCoords ((fb inc.id).getD inc)).2 = false) :
    addIncident fb now jsPi jsCos jsSin st inc = st := by
  by_cases h0 : inc.id = ""
  · simp [addIncident, h0]
  · cases hx : alistGet st.markers inc.id with
    | some v => exact addIncident_present_noop fb now jsPi jsCos jsSin st inc (by rw [hx]; rfl)
    | none => simp [addIncident, h0, hx, h]

theorem addIncident_markers_of_valid (fb : String → Option IncidentData) (now jsPi : ℚ)
    (jsCos jsSin : ℚ → ℚ) (st : MapState) (inc : IncidentData) (la lo : ℚ)
    (hid : ¬(inc.id = ""))
    (hfresh : alistGet st.markers inc.id = none)
    (hco : extractCoords ((fb inc.id).getD inc) = (some la, some lo))
    (hval : isValidCoordinate (some la) (some lo) = true) :
    (addIncident fb now jsPi jsCos jsSin st inc).markers
      = alistSet st.markers ((fb inc.id).getD inc).id
          ⟨st.nextMarkerId, parseTimestamp now ((fb inc.id).getD inc).timestamp,
           ⟨((fb inc.id).getD inc).id, la, lo,
            parseTimestamp now ((fb inc.id).getD inc).timestamp⟩⟩ := by
  simp [addIncident, hid, hfresh, hco, hval]

theorem addIncident_newest_of_valid (fb : String → Option IncidentData) (now jsPi : ℚ)
    (jsCos jsSin : ℚ → ℚ) (st : MapState) (inc : IncidentData) (la lo : ℚ)
    (hid : ¬(inc.id = ""))
    (hfresh : alistGet st.markers inc.id = none)
    (hco : extractCoords ((fb inc.id).getD inc) = (some la, some lo))
    (hval : isValidCoordinate (some la) (some lo) = true) :
    (addIncident fb now jsPi jsCos jsSin st inc).newestDate
      = (updateDateRange st.newestDate st.oldestDate
          (parseTimestamp now ((fb inc.id).getD inc).timestamp)).1 := by
  simp [addIncident, hid, hfresh, hco, hval]

/-- C5 counterexample: the claim quantifies over all incidents with
equal ids, including a first incident whose coordinates fail
validation; its add is a no-op, so adding a valid incident with the
same id afterwards does store it, and the second call is not a no-op. -/
theorem C5_counterexample :
    iBad.id = jGood.id ∧
    addIncident fbNone 0 0 zeroFun zeroFun initMapState iBad = initMapState ∧
    addIncident fbNone 0 0 zeroFun zeroFun
        (addIncident fbNone 0 0 zeroFun zeroFun initMapState iBad) jGood
      ≠ addIncident fbNone 0 0 zeroFun zeroFun initMapState iBad := by
  refine ⟨rfl, by with_unfolding_all rfl, ?_⟩
  intro hcontra
  exact absurd (congrArg (fun s => s.markers.length) hcontra)
    (by with_unfolding_all decide)

/-- C5 as amended: after an add that actually stored its incident
(fresh nonempty id, coordinates valid, the external store returning
records under their own id), a second add with the same id is a
no-op on the whole state; and add is a no-op whenever the resolved
coordinates fail validation, or the id is already present. -/
theorem C5_add_idempotent :
    (∀ (fb : String → Option IncidentData) (now jsPi : ℚ) (jsCos jsSin : ℚ → ℚ)
       (st : MapState) (i j : IncidentData),
       (∀ s d, fb s = some d → d.id = s) →
       i.id ≠ "" →
       alistGet st.markers i.id = none →
       isValidCoordinate (extractCoords ((fb i.id).getD i)).1
         (extractCoords ((fb i.id).getD i)).2 = true →
       j.id = i.id →
       addIncident fb now jsPi jsCos jsSin (addIncident fb now jsPi jsCos jsSin st i) j
         = addIncident fb now jsPi jsCos jsSin st i) ∧
    (∀ (fb : String → Option IncidentData) (now jsPi : ℚ) (jsCos jsSin : ℚ → ℚ)
       (st : MapState) (inc : IncidentData),
       isValidCoordinate (extractCoords ((fb inc.id).getD inc)).1
         (extractCoords ((fb inc.id).getD inc)).2 = false →
       addIncident fb now jsPi jsCos jsSin st inc = st) ∧
    (∀ (fb : String → Option IncidentData) (now jsPi : ℚ) (jsCos jsSin : ℚ → ℚ)
       (st : MapState) (inc : IncidentData),
       (alistGet st.markers inc.id).isSome = true →
       addIncident fb now jsPi jsCos jsSin st inc = st) := by
  refine ⟨?_, ?_, ?_⟩
  · intro fb now jsPi jsCos jsSin st i j hfb hid hfresh hval hj
    have hfid : ((fb i.id).getD i).id = i.id := by
      cases hc : fb i.id with
      | none => simp
      | some d => simpa using hfb _ _ hc
    obtain ⟨la, lo, h1, h2⟩ := isValid_some hval
    have hco : extractCoords ((fb i.id).getD i) = (some la, some lo) := by
      rw [← h1, ← h2]
    have hval2 : isValidCoordinate (some la) (some lo) = true := by
      rw [← h1, ← h2]; exact hval
    have hm := addIncident_markers_of_valid fb now jsPi jsCos jsSin st i la lo
      hid hfresh hco hval2
    rw [hfid] at hm
    have hpresent : (alistGet (addIncident fb now jsPi jsCos jsSin st i).markers j.id).isSome
        = true := by
      rw [hm, hj, alistGet_set_self]
      rfl
    exact addIncident_present_noop fb now jsPi jsCos jsSin _ j hpresent
  · intro fb now jsPi jsCos jsSin st inc h
    exact addIncident_invalid_noop fb now jsPi jsCos jsSin st inc h
  · intro fb now jsPi jsCos jsSin st inc h
    exact addIncident_present_noop fb now jsPi jsCos jsSin st inc h

/-- Witness for C5: re-adding the stored Tel Aviv incident is a no-op,
both as a duplicate id and as a repeated add. -/
theorem C5_witness :
    addIncident fbNone 0 0 zeroFun zeroFun st1 incA = st1 ∧
    addIncident fbNone 0 0 zeroFun zeroFun
        (addIncident fbNone 0 0 zeroFun zeroFun initMapState incA) incA
      = addIncident fbNone 0 0 zeroFun zeroFun initMapState incA :=
  ⟨C5_add_idempotent.2.2 fbNone 0 0 zeroFun zeroFun st1 incA
      (by with_unfolding_all decide),
   C5_add_idempotent.1 fbNone 0 0 zeroFun zeroFun initMapState incA incA
      (fun _ _ h => Option.noConfusion h) (by decide) rfl
      (by with_unfolding_all decide) rfl⟩

theorem removeIncident_dates (st : MapState) (id : String) :
    (removeIncident st id).newestDate = st.newestDate ∧
    (removeIncident st id).oldestDate = st.oldestDate := by
  unfold removeIncident
  cases alistGet st.markers id <;> simp

theorem foldl_removeIncident_dates (l : List (String × MarkerData)) :
    ∀ st : MapState,
      (l.foldl (fun s e => removeIncident s e.1) st).newestDate = st.newestDate ∧
      (l.foldl (fun s e => removeIncident s e.1) st).oldestDate = st.oldestDate := by
  induction l with
  | nil => intro st; exact ⟨rfl, rfl⟩
  | cons e es ih =>
      intro st
      have h := removeIncident_dates st e.1
      have h2 := ih (removeIncident st e.1)
      exact ⟨h2.1.trans h.1, h2.2.trans h.2⟩

/-- C7 counterexample: the claim asserts the window is recomputed
fully on bulk removal; clearAllIncidents leaves the window fields
untouched, so after removing every incident the window still holds the
old bound while a full recomputation over the (now empty) incident set
yields the null window. -/
theorem C7_counterexample :
    (clearAllIncidents false st1).markers = [] ∧
    (clearAllIncidents false st1).newestDate = some 5000 ∧
    recomputeWindow (clearAllIncidents false st1).markers = (none, none) ∧
    (clearAllIncidents false st1).newestDate
      ≠ (recomputeWindow (clearAllIncidents false st1).markers).1 := by
  refine ⟨by with_unfolding_all rfl, by with_unfolding_all rfl,
    by with_unfolding_all rfl, ?_⟩
  intro hcontra
  rw [show (clearAllIncidents false st1).newestDate = some 5000 by with_unfolding_all rfl,
    show (recomputeWindow (clearAllIncidents false st1).markers).1 = none
      by with_unfolding_all rfl] at hcontra
  exact Option.noConfusion hcontra

/-- C7 as amended: the window is mutated monotonically by
updateDateRange as incidents are added (the newest bound never moves
earlier, the oldest never later, and the invariant oldest at most
newest is preserved), while bulk removal (clearAllIncidents and
clearOldIncidents) leaves the window unchanged rather than recomputing
it. -/
theorem C7_time_window :
    (∀ (newest oldest : Option ℚ) (t : ℚ), windowInv newest oldest →
       windowInv (updateDateRange newest oldest t).1 (updateDateRange newest oldest t).2 ∧
       (∀ n, newest = some n →
         ∃ n2, (updateDateRange newest oldest t).1 = some n2 ∧ n ≤ n2) ∧
       (∀ o, oldest = some o →
         ∃ o2, (updateDateRange newest oldest t).2 = some o2 ∧ o2 ≤ o)) ∧
    (∀ (st : MapState) (b : Bool),
       (clearAllIncidents b st).newestDate = st.newestDate ∧
       (clearAllIncidents b st).oldestDate = st.oldestDate) ∧
    (∀ (now maxAge : ℚ) (st : MapState),
       (clearOldIncidents now maxAge st).newestDate = st.newestDate ∧
       (clearOldIncidents now maxAge st).oldestDate = st.oldestDate) := by
  refine ⟨?_, ?_, ?_⟩
  · intro newest oldest t hw
    cases newest with
    | none =>
        cases oldest with
        | none =>
            refine ⟨?_, ?_, ?_⟩
            · show windowInv (some t) (some t)
              simp [windowInv]
            · intro n hn; exact Option.noConfusion hn
            · intro o ho; exact Option.noConfusion ho
        | some o => simp [windowInv] at hw
    | some n =>
        cases oldest with
        | none => simp [windowInv] at hw
        | some o =>
            have hon : o ≤ n := by simpa [windowInv] using hw
            refine ⟨?_, ?_, ?_⟩
            · simp only [updateDateRange]
              split_ifs with ht1 ht2 ht2 <;> simp [windowInv] <;> linarith
            · intro m hm
              injection hm with hm
              subst hm
              simp only [updateDateRange]
              split_ifs with ht1
              · exact ⟨t, rfl, le_of_lt ht1⟩
              · exact ⟨n, rfl, le_refl n⟩
            · intro p hp
              injection hp with hp
              subst hp
              simp only [updateDateRange]
              split_ifs with ht1
              · exact ⟨t, rfl, le_of_lt ht1⟩
              · exact ⟨o, rfl, le_refl o⟩
  · intro st b
    cases b <;> exact ⟨rfl, rfl⟩
  · intro now maxAge st
    exact foldl_removeIncident_dates _ st

/-- Witness for C7: the window invariant and monotonicity at a
concrete update. -/
theorem C7_witness :
    windowInv (updateDateRange (some 5) (some 3) 7).1 (updateDateRange (some 5) (some 3) 7).2 ∧
    (∃ n2, (updateDateRange (some 5) (some 3) 7).1 = some n2 ∧ (5 : ℚ) ≤ n2) :=
  ⟨(C7_time_window.1 (some 5) (some 3) 7 (by norm_num [windowInv])).1,
   (C7_time_window.1 (some 5) (some 3) 7 (by norm_num [windowInv])).2.1 5 rfl⟩

/-- C8: the claim (and the spec) say removeIncident removes the
incident from its cluster occupant list and deletes the cluster entry
when the list becomes empty.  The code computes
`cluster.indexOf(marker)`, but the array elements are the wrapper
objects pushed by addIncident, never reference-equal to the marker, so
the index is -1, nothing is spliced, and the key is never deleted.
Evaluated at the failing input (a store holding exactly one incident):
the marker map entry is removed, but the single cluster occupant and
its key survive. -/
theorem C8_remove_leaves_cluster :
    (removeIncident st1 "a").markers = [] ∧
    alistGet (removeIncident st1 "a").markerClusters (32, 34)
      = some [⟨0, ⟨"a", 32 + 0, 34 + 0, 5000⟩, (0, 0)⟩] := by
  refine ⟨by with_unfolding_all rfl, by with_unfolding_all rfl⟩

/-- C10 counterexample: the claim says an incident with a missing
timestamp is always recorded as the newest element of the window; if
the wall clock is behind a stored timestamp (here 1000 versus a stored
2000), the fallback timestamp is not the newest. -/
theorem C10_counterexample :
    incBMissing.timestamp = JsTimestampField.missing ∧
    (alistGet st4.markers "b").map MarkerData.timestamp = some 1000 ∧
    st4.newestDate = some 2000 ∧
    st4.newestDate ≠ some (1000 : ℚ) := by
  refine ⟨rfl, by with_unfolding_all rfl, by with_unfolding_all rfl, ?_⟩
  intro hcontra
  rw [show st4.newestDate = some 2000 by with_unfolding_all rfl] at hcontra
  injection hcontra with hcontra
  exact absurd hcontra (by with_unfolding_all decide)

/-- C10 as amended: an incident whose timestamp is missing or
unparseable is not rejected: it is stored with the current wall-clock
time as timestamp and the marker is created; the window newest becomes
the maximum of its previous value and the current time, so the
incident is the newest element exactly when no stored timestamp
exceeds the wall clock. -/
theorem C10_timestamp_fallback :
    ∀ (fb : String → Option IncidentData) (now jsPi : ℚ) (jsCos jsSin : ℚ → ℚ)
      (st : MapState) (inc : IncidentData),
      (((fb inc.id).getD inc).timestamp = JsTimestampField.missing ∨
       ((fb inc.id).getD inc).timestamp = JsTimestampField.invalid) →
      inc.id ≠ "" →
      alistGet st.markers inc.id = none →
      isValidCoordinate (extractCoords ((fb inc.id).getD inc)).1
        (extractCoords ((fb inc.id).getD inc)).2 = true →
      (∃ md, alistGet (addIncident fb now jsPi jsCos jsSin st inc).markers
          ((fb inc.id).getD inc).id = some md ∧ md.timestamp = now) ∧
      (addIncident fb now jsPi jsCos jsSin st inc).newestDate
        = (updateDateRange st.newestDate st.oldestDate now).1 ∧
      ((∀ m, st.newestDate = some m → m ≤ now) →
        (addIncident fb now jsPi jsCos jsSin st inc).newestDate = some now) := by
  intro fb now jsPi jsCos jsSin st inc hts hid hfresh hval
  obtain ⟨la, lo, h1, h2⟩ := isValid_some hval
  have hco : extractCoords ((fb inc.id).getD inc) = (some la, some lo) := by
    rw [← h1, ← h2]
  have hval2 : isValidCoordinate (some la) (some lo) = true := by
    rw [← h1, ← h2]; exact hval
  have hpt : parseTimestamp now ((fb inc.id).getD inc).timestamp = now := by
    rcases hts with h | h <;> rw [h] <;> rfl
  have hm := addIncident_markers_of_valid fb now jsPi jsCos jsSin st inc la lo
    hid hfresh hco hval2
  have hn := addIncident_newest_of_valid fb now jsPi jsCos jsSin st inc la lo
    hid hfresh hco hval2
  rw [hpt] at hm hn
  refine ⟨⟨⟨st.nextMarkerId, now, ⟨((fb inc.id).getD inc).id, la, lo, now⟩⟩, ?_, rfl⟩,
    hn, ?_⟩
  · rw [hm]
    exact alistGet_set_self _ _ _
  · intro hle
    rw [hn]
    cases hnd : st.newestDate with
    | none => rfl
    | some m =>
        have hmn : m ≤ now := hle m hnd
        simp only [updateDateRange]
        split_ifs with ht
        · rfl
        · have : m = now := le_antisymm hmn (not_lt.mp ht)
          rw [this]

/-- Witness for C10: adding the missing-timestamp incident to the
empty store at wall-clock 42 stores it with timestamp 42, which
becomes the window newest. -/
theorem C10_witness :
    (∃ md, alistGet (addIncident fbNone 42 0 zeroFun zeroFun initMapState
        incBMissing).markers incBMissing.id = some md ∧ md.timestamp = 42) ∧
    (addIncident fbNone 42 0 zeroFun zeroFun initMapState incBMissing).newestDate
      = some 42 :=
  ⟨(C10_timestamp_fallback fbNone 42 0 zeroFun zeroFun initMapState incBMissing
      (Or.inl rfl) (by decide) rfl (by with_unfolding_all decide)).1,
   (C10_timestamp_fallback fbNone 42 0 zeroFun zeroFun initMapState incBMissing
      (Or.inl rfl) (by decide) rfl (by with_unfolding_all decide)).2.2
      (fun m hm => Option.noConfusion hm)⟩

end IranIsrael
